import Mathlib

/-!
Verification of the MediaCrawler task-orchestration server
(`server/task_runner.py`, `server/db_handler.py`, `server/models.py`)
against its natural-language specification.

The Python modules are shallowly embedded: the mutable global `config`
module becomes an explicit `Config` record threaded through the functions,
the MongoDB collections become association lists of documents, Python
dictionary values with truthiness become the `PyVal` type, and the
background task loop of `TaskExecutor._run_task_background` becomes a pure
fold over rounds and platforms parameterised by the behaviour of the
external crawler (which may capture records and may raise).
-/

namespace MediaCrawler

/-! ## Python values and truthiness

Post objects are dictionaries; the id fields hold strings, numbers or
`None`.  `PyVal` models such a value together with Python truthiness, and
`pyGet` models `dict.get(k)` (missing key yields `None`). -/

inductive PyVal where
  | str (s : String)
  | int (n : Int)
  | none
  deriving DecidableEq, Repr

/-- Python truthiness of a value: empty string, `0` and `None` are falsy. -/
def PyVal.truthy : PyVal → Bool
  | .str s => s ≠ ""
  | .int n => n ≠ 0
  | .none => false

/-- Python `str(v)` for the values we model. -/
def PyVal.pyStr : PyVal → String
  | .str s => s
  | .int n => toString n
  | .none => "None"

/-- Python `a or b` on values: first truthy operand, else the last. -/
def pyOr (a b : PyVal) : PyVal := if a.truthy then a else b

/-- Python `dict.get(k)`: a missing key yields `None`. -/
def pyGet (o : Option PyVal) : PyVal := o.getD PyVal.none

/-! ## Post data and id derivation

`task_runner.py` line 243 and `db_handler.py` lines 54 and 101 each
compute
`post_data.get("post_id") or post_data.get("note_id") or
 post_data.get("aweme_id") or post_data.get("id")`.
We embed the expression once per module, mirroring the duplication. -/

structure PostData where
  post_id : Option PyVal := Option.none
  note_id : Option PyVal := Option.none
  aweme_id : Option PyVal := Option.none
  id : Option PyVal := Option.none
  /-- opaque remaining payload of the post dictionary -/
  payload : String := ""
  deriving DecidableEq, Repr

/-- Id derivation as written in `CrawlerWrapper._capture_save_data`
(`task_runner.py` line 243). -/
def derivePostIdRunner (p : PostData) : PyVal :=
  pyOr (pyGet p.post_id) (pyOr (pyGet p.note_id) (pyOr (pyGet p.aweme_id) (pyGet p.id)))

/-- Id derivation as written in `MediaCrawlerDBHandler.save_post_with_comments`
(`db_handler.py` line 54) and `save_batch` (line 101). -/
def derivePostIdDb (p : PostData) : PyVal :=
  pyOr (pyGet p.post_id) (pyOr (pyGet p.note_id) (pyOr (pyGet p.aweme_id) (pyGet p.id)))

/-! ## Association lists for Python dicts and Mongo collections -/

/-- Assignment `d[k] = v` on an association list: overwrite the first binding of `k`,
else append. -/
def dictSet {α : Type} : List (String × α) → String → α → List (String × α)
  | [], k, v => [(k, v)]
  | (k0, v0) :: rest, k, v =>
      if k0 = k then (k0, v) :: rest else (k0, v0) :: dictSet rest k v

/-- Lookup `d.get(k)` on an association list. -/
def dictGet {α : Type} : List (String × α) → String → Option α
  | [], _ => Option.none
  | (k0, v0) :: rest, k => if k0 = k then some v0 else dictGet rest k

/-! ## The capture hook

`CrawlerWrapper._capture_save_data` appends the post to
`self.captured_posts` and records `self.captured_comments[str(post_id)] =
comments_data` when a truthy id is derivable, else does nothing. -/

structure CaptureState where
  captured_posts : List PostData := []
  captured_comments : List (String × List String) := []
  deriving DecidableEq, Repr

/-- One call of `_capture_save_data` (`task_runner.py` lines 241-249). -/
def captureSaveData (st : CaptureState) (post : PostData) (comments : List String) :
    CaptureState :=
  let post_id := derivePostIdRunner post
  if post_id.truthy then
    { captured_posts := st.captured_posts ++ [post],
      captured_comments := dictSet st.captured_comments post_id.pyStr comments }
  else st

/-- The sequence of sink calls the crawler makes during `start()`. -/
def captureRun (calls : List (PostData × List String)) : CaptureState :=
  calls.foldl (fun st pc => captureSaveData st pc.1 pc.2) {}

/-! ## Persistence (`db_handler.py`)

A Mongo database is an association list from collection name to a list of
documents; `update_one(query, {"$set": document}, upsert=True)` replaces
the first document matching `post_id` or appends a new one. -/

structure Metadata where
  task_id : String := ""
  round : Nat := 0
  keywords : List String := []
  crawl_time : Nat := 0
  deriving DecidableEq, Repr

structure Document where
  post_id : String
  post_detail : PostData
  comments : List String
  comment_count : Nat
  crawl_metadata : Metadata
  updated_at : Nat
  deriving DecidableEq, Repr

/-- One Mongo database: collection name to documents. -/
def DB : Type := List (String × List Document)

instance : DecidableEq DB := by
  unfold DB
  infer_instance

instance : Repr DB := by
  unfold DB
  infer_instance

/-- Embeds `get_collection`: collection named `{platform}_media_crawler`
(lazily empty when absent). -/
def getCollection (db : DB) (platform : String) : List Document :=
  (dictGet db (platform ++ "_media_crawler")).getD []

/-- Embeds `update_one({"post_id": pid}, {"$set": doc}, upsert=True)`:
replace the first matching document, else insert. -/
def updateOneUpsert (coll : List Document) (pid : String) (doc : Document) :
    List Document :=
  match coll with
  | [] => [doc]
  | d :: rest =>
      if d.post_id = pid then doc :: rest else d :: updateOneUpsert rest pid doc

/-- Embeds `MediaCrawlerDBHandler.save_post_with_comments`
(`db_handler.py` lines 33-87): derive the id, refuse falsy ids, upsert the
document keyed by `str(post_id)`, return the new database and the Boolean
result. -/
def savePostWithComments (db : DB) (platform : String) (post_data : PostData)
    (comments : List String) (metadata : Option Metadata) (now : Nat) :
    DB × Bool :=
  let post_id := derivePostIdDb post_data
  if post_id.truthy then
    let pid := post_id.pyStr
    let doc : Document :=
      { post_id := pid,
        post_detail := post_data,
        comments := comments,
        comment_count := comments.length,
        crawl_metadata := metadata.getD {},
        updated_at := now }
    let collName := platform ++ "_media_crawler"
    let coll := getCollection db platform
    (dictSet db collName (updateOneUpsert coll pid doc), true)
  else (db, false)

/-- Embeds `MediaCrawlerDBHandler.save_batch` (`db_handler.py` lines 89-116):
skip posts without a truthy derivable id, save the rest, count successes. -/
def saveBatch (db : DB) (platform : String) (posts_data : List PostData)
    (comments_dict : List (String × List String)) (metadata : Option Metadata)
    (now : Nat) : DB × Nat :=
  match posts_data with
  | [] => (db, 0)
  | post :: rest =>
      let post_id := derivePostIdDb post
      if post_id.truthy then
        let comments := (dictGet comments_dict post_id.pyStr).getD []
        let (db1, ok) := savePostWithComments db platform post comments metadata now
        let (db2, n) := saveBatch db1 platform rest comments_dict metadata now
        (db2, (if ok then 1 else 0) + n)
      else saveBatch db platform rest comments_dict metadata now

/-! ## The request models (`server/models.py`) -/

structure CrawlerConfig where
  login_type : String := "qrcode"
  cookies : String := ""
  crawler_type : String := "search"
  sort_type : String := "general"
  headless : Bool := false
  enable_cdp_mode : Bool := true
  enable_proxy : Bool := false
  ip_proxy_pool_count : Int := 2
  max_scan_page : Int := 10
  max_notes_count : Int := 20
  max_comments_per_note : Int := 10
  enable_get_comments : Bool := true
  enable_get_sub_comments : Bool := false
  max_sleep_sec : Int := 2
  deriving DecidableEq, Repr

structure CrawlRequest where
  platforms : List String
  keyword_groups : List (List String)
  config : CrawlerConfig := {}
  task_id : Option String := Option.none
  task_name : Option String := Option.none
  deriving DecidableEq, Repr

/-! ## The global `config` module and the config transaction

`ConfigInjector.inject_config` mutates module-level attributes of the
global `config` module; the module state is embedded as a record.
`hasSORT_TYPE` models `hasattr(config, 'SORT_TYPE')`, and
`crawler_type_var` models the context variable set via a token. -/

structure Config where
  PLATFORM : String := "xhs"
  KEYWORDS : String := ""
  LOGIN_TYPE : String := "qrcode"
  CRAWLER_TYPE : String := "search"
  HEADLESS : Bool := false
  ENABLE_CDP_MODE : Bool := true
  ENABLE_IP_PROXY : Bool := false
  IP_PROXY_POOL_COUNT : Int := 2
  CRAWLER_MAX_NOTES_COUNT : Int := 15
  CRAWLER_MAX_COMMENTS_COUNT_SINGLENOTES : Int := 10
  ENABLE_GET_COMMENTS : Bool := true
  ENABLE_GET_SUB_COMMENTS : Bool := false
  CRAWLER_MAX_SLEEP_SEC : Int := 2
  hasSORT_TYPE : Bool := true
  SORT_TYPE : String := "general"
  crawler_type_var : String := "search"
  deriving DecidableEq, Repr

/-- The `tokens` dictionary built by `inject_config`: stored prior values,
each optional because `restore_config` reads them with `.get` defaults
(and `original_sort_type` is stored only when `SORT_TYPE` exists). -/
structure Tokens where
  original_platform : Option String := Option.none
  original_keywords : Option String := Option.none
  original_login_type : Option String := Option.none
  original_crawler_type : Option String := Option.none
  original_headless : Option Bool := Option.none
  original_enable_cdp : Option Bool := Option.none
  original_enable_proxy : Option Bool := Option.none
  original_max_notes : Option Int := Option.none
  original_max_comments : Option Int := Option.none
  original_enable_comments : Option Bool := Option.none
  original_enable_sub_comments : Option Bool := Option.none
  original_sleep : Option Int := Option.none
  original_sort_type : Option String := Option.none
  crawler_type_token : Option String := Option.none
  deriving DecidableEq, Repr

/-- Models `if not tokens:` — the dictionary is empty exactly when no key was
ever set. -/
def Tokens.isEmpty (t : Tokens) : Bool :=
  t.original_platform.isNone && t.original_keywords.isNone &&
  t.original_login_type.isNone && t.original_crawler_type.isNone &&
  t.original_headless.isNone && t.original_enable_cdp.isNone &&
  t.original_enable_proxy.isNone && t.original_max_notes.isNone &&
  t.original_max_comments.isNone && t.original_enable_comments.isNone &&
  t.original_enable_sub_comments.isNone && t.original_sleep.isNone &&
  t.original_sort_type.isNone && t.crawler_type_token.isNone

/-- Embeds `ConfigInjector.inject_config` (`task_runner.py` lines 50-111):
record the prior values, write the request values (note that
`IP_PROXY_POOL_COUNT` is overwritten but its prior value is never
recorded), set the context variable, and handle `SORT_TYPE` only when the
attribute exists.  Returns the token dictionary and the mutated module. -/
def injectConfig (platform : String) (keywords : List String)
    (cc : CrawlerConfig) (c : Config) : Tokens × Config :=
  let tokens : Tokens :=
    { original_platform := some c.PLATFORM,
      original_keywords := some c.KEYWORDS,
      original_login_type := some c.LOGIN_TYPE,
      original_crawler_type := some c.CRAWLER_TYPE,
      original_headless := some c.HEADLESS,
      original_enable_cdp := some c.ENABLE_CDP_MODE,
      original_enable_proxy := some c.ENABLE_IP_PROXY,
      original_max_notes := some c.CRAWLER_MAX_NOTES_COUNT,
      original_max_comments := some c.CRAWLER_MAX_COMMENTS_COUNT_SINGLENOTES,
      original_enable_comments := some c.ENABLE_GET_COMMENTS,
      original_enable_sub_comments := some c.ENABLE_GET_SUB_COMMENTS,
      original_sleep := some c.CRAWLER_MAX_SLEEP_SEC,
      original_sort_type := if c.hasSORT_TYPE then some c.SORT_TYPE else Option.none,
      crawler_type_token := some c.crawler_type_var }
  let c1 : Config :=
    { c with
      PLATFORM := platform,
      KEYWORDS := String.intercalate "," keywords,
      LOGIN_TYPE := cc.login_type,
      CRAWLER_TYPE := cc.crawler_type,
      HEADLESS := cc.headless,
      ENABLE_CDP_MODE := cc.enable_cdp_mode,
      ENABLE_IP_PROXY := cc.enable_proxy,
      IP_PROXY_POOL_COUNT := cc.ip_proxy_pool_count,
      CRAWLER_MAX_NOTES_COUNT := cc.max_notes_count,
      CRAWLER_MAX_COMMENTS_COUNT_SINGLENOTES := cc.max_comments_per_note,
      ENABLE_GET_COMMENTS := cc.enable_get_comments,
      ENABLE_GET_SUB_COMMENTS := cc.enable_get_sub_comments,
      CRAWLER_MAX_SLEEP_SEC := cc.max_sleep_sec,
      crawler_type_var := cc.crawler_type,
      SORT_TYPE := if c.hasSORT_TYPE then cc.sort_type else c.SORT_TYPE }
  (tokens, c1)

/-- Embeds `ConfigInjector.restore_config` (`task_runner.py` lines 113-139):
return immediately on an empty dictionary, otherwise write back every
stored value with the documented `.get` fallbacks, write `SORT_TYPE` only
when its key is present, and reset the context variable from the token. -/
def restoreConfig (tokens : Tokens) (c : Config) : Config :=
  if tokens.isEmpty then c
  else
    { c with
      PLATFORM := tokens.original_platform.getD "xhs",
      KEYWORDS := tokens.original_keywords.getD "",
      LOGIN_TYPE := tokens.original_login_type.getD "qrcode",
      CRAWLER_TYPE := tokens.original_crawler_type.getD "search",
      HEADLESS := tokens.original_headless.getD false,
      ENABLE_CDP_MODE := tokens.original_enable_cdp.getD true,
      ENABLE_IP_PROXY := tokens.original_enable_proxy.getD false,
      CRAWLER_MAX_NOTES_COUNT := tokens.original_max_notes.getD 15,
      CRAWLER_MAX_COMMENTS_COUNT_SINGLENOTES := tokens.original_max_comments.getD 10,
      ENABLE_GET_COMMENTS := tokens.original_enable_comments.getD true,
      ENABLE_GET_SUB_COMMENTS := tokens.original_enable_sub_comments.getD false,
      CRAWLER_MAX_SLEEP_SEC := tokens.original_sleep.getD 2,
      SORT_TYPE :=
        match tokens.original_sort_type with
        | some s => s
        | Option.none => c.SORT_TYPE,
      crawler_type_var :=
        match tokens.crawler_type_token with
        | some s => s
        | Option.none => c.crawler_type_var }

/-! ## The crawler wrapper (`CrawlerWrapper`)

The external crawler is opaque; one invocation is described by a
`CrawlerBeh`: whether `CrawlerFactory.create_crawler` raises, the sequence
of calls `start()` makes to the (possibly patched) store sink, and whether
`start()` raises afterwards.  The per-platform store modules are embedded
as an association list from platform code to the current `save_data`
binding. -/

inductive Sink where
  | original
  | capture
  deriving DecidableEq, Repr

/-- The store modules patched by `_setup_data_capture`
(`task_runner.py` lines 221-229). -/
def storePlatforms : List String := ["xhs", "dy", "bili", "wb", "ks", "tieba", "zhihu"]

/-- Embeds `_setup_data_capture` (`task_runner.py` lines 202-239): when the
platform has a store module with a `save_data` attribute (modeled by a
binding in the association list), remember the original in
`self.original_methods` and rebind `save_data` to the capture hook.
No code path ever writes the remembered original back. -/
def setupDataCapture (sinks : List (String × Sink)) (platform : String) :
    List (String × Sink) :=
  if platform ∈ storePlatforms ∧ (dictGet sinks platform).isSome then
    dictSet sinks platform Sink.capture
  else sinks

/-- Behaviour of one external crawler invocation. -/
structure CrawlerBeh where
  /-- Holds `some msg` when `CrawlerFactory.create_crawler` raises. -/
  createErr : Option String := Option.none
  /-- the `save_data(post, comments)` calls made during `start()` -/
  captures : List (PostData × List String) := []
  /-- Holds `some msg` when `crawler.start()` raises (after the calls above). -/
  startErr : Option String := Option.none
  /-- Models `hasattr(crawler, "browser_context")`. -/
  hasBrowserContext : Bool := true
  /-- Holds `some msg` when `browser_context.close()` raises (swallowed). -/
  browserCloseErr : Option String := Option.none
  deriving DecidableEq, Repr

/-- Result dictionary of `run_with_capture`. -/
structure CrawlResult where
  posts : List PostData
  comments : List (String × List String)
  success : Bool
  error : Option String
  deriving DecidableEq, Repr

/-- Embeds `CrawlerWrapper.run_with_capture` (`task_runner.py` lines 154-200) on a
fresh wrapper: create the crawler, install the capture hook, run `start()`
(whose sink calls land in the wrapper's captured lists only when the hook
was installed), close the browser context swallowing errors, and return the
captured data; any exception from creation or `start()` is caught and
reported as `success=False` with empty posts and comments.  Returns the
store-module state after the call together with the result dictionary. -/
def runWithCapture (sinks : List (String × Sink)) (platform : String)
    (beh : CrawlerBeh) : List (String × Sink) × CrawlResult :=
  match beh.createErr with
  | some e => (sinks, ⟨[], [], false, some e⟩)
  | Option.none =>
    let patched : Bool :=
      decide (platform ∈ storePlatforms) && (dictGet sinks platform).isSome
    let sinks1 := setupDataCapture sinks platform
    let cap : CaptureState := if patched then captureRun beh.captures else {}
    match beh.startErr with
    | some e => (sinks1, ⟨[], [], false, some e⟩)
    | Option.none =>
      (sinks1, ⟨cap.captured_posts, cap.captured_comments, true, Option.none⟩)

/-! ## The task executor (`TaskExecutor`) -/

/-- Embeds `TaskStatus.__init__` defaults (`task_runner.py` lines 20-31);
`progress` is a rational standing for the Python float. -/
structure TaskStatus where
  task_id : String
  total_rounds : Nat
  current_round : Nat := 0
  current_platform : Option String := Option.none
  status : String := "pending"
  progress : Rat := 0
  error_message : Option String := Option.none
  start_time : Option Nat := Option.none
  end_time : Option Nat := Option.none
  deriving DecidableEq, Repr

/-- Embeds `cls._current_task and cls._current_task.status == "running"`. -/
def slotBusy (current : Option TaskStatus) : Bool :=
  match current with
  | some t => t.status == "running"
  | Option.none => false

/-- Embeds `TaskExecutor.execute_crawl_task` (`task_runner.py` lines 259-281):
under the lock, raise when the tracked task is running (leaving the slot
untouched); otherwise take the caller-supplied task id when truthy, else
the generated one, build the `TaskStatus` record and install it as the
current task.  Background execution is detached afterwards and is modeled
separately by `runTaskBackground`. -/
def executeCrawlTask (current : Option TaskStatus) (req : CrawlRequest)
    (genId : String) : Except String String × Option TaskStatus :=
  if slotBusy current then
    (Except.error "Task queue is full. Another task is currently running.", current)
  else
    let tid :=
      match req.task_id with
      | some s => if s ≠ "" then s else genId
      | Option.none => genId
    (Except.ok tid, some { task_id := tid, total_rounds := req.keyword_groups.length })

/-- Observable side effects of the background loop, in order. -/
inductive Event where
  | savedCount (platform : String) (n : Nat)
  | platformFailed (platform : String) (err : String)
  | platformExc (platform : String) (err : String)
  | indexesCreated (platform : String)
  deriving DecidableEq, Repr

/-- Shared mutable state outside the task record: the global `config`
module, the store-module sinks, the database and the event log. -/
structure World where
  config : Config := {}
  sinks : List (String × Sink) := storePlatforms.map (fun p => (p, Sink.original))
  db : DB := []
  events : List Event := []
  deriving DecidableEq, Repr

/-- Environment of one background run: the constructor of
`MediaCrawlerDBHandler` (line 294, inside the `try`), the behaviour of each
crawler invocation per round and platform, the two sleeps (each may raise),
and the clock. -/
structure Env where
  dbInit : Except String Unit
  crawler : Nat → String → CrawlerBeh
  platformSleep : Nat → String → Except String Unit
  roundSleep : Nat → Except String Unit
  now : Nat

/-- The per-platform body (`task_runner.py` lines 302-352): set
`current_platform`, then inside `try`: inject config, run the wrapper,
restore config, persist on success else log the platform failure, create
indexes, and sleep unless this is the last platform.  Of the modeled
operations only the sleep can raise; the `except` branch logs and calls
`restore_config({})`, which returns without touching the config. -/
def platformStep (env : Env) (req : CrawlRequest) (roundIdx : Nat)
    (keywords : List String) (tw : TaskStatus × World) (platform : String) :
    TaskStatus × World :=
  let task := { tw.1 with current_platform := some platform }
  let w := tw.2
  let tc := injectConfig platform keywords req.config w.config
  let sr := runWithCapture w.sinks platform (env.crawler roundIdx platform)
  let result := sr.2
  let c2 := restoreConfig tc.1 tc.2
  let w1 : World := { w with config := c2, sinks := sr.1 }
  let w2 :=
    if result.success then
      let meta : Metadata :=
        { task_id := task.task_id, round := roundIdx, keywords := keywords,
          crawl_time := env.now }
      let dn := saveBatch w1.db platform result.posts result.comments (some meta) env.now
      { w1 with db := dn.1, events := w1.events ++ [Event.savedCount platform dn.2] }
    else
      { w1 with events := w1.events ++ [Event.platformFailed platform (result.error.getD "")] }
  let w3 := { w2 with events := w2.events ++ [Event.indexesCreated platform] }
  if platform ≠ req.platforms.getLastD "" then
    match env.platformSleep roundIdx platform with
    | Except.ok _ => (task, w3)
    | Except.error e =>
        (task, { w3 with events := w3.events ++ [Event.platformExc platform e],
                         config := restoreConfig {} w3.config })
  else (task, w3)

/-- Result of the round loop: the mutated task and world, plus the message
of an exception that escaped the loop, if any. -/
structure RoundsOutcome where
  task : TaskStatus
  world : World
  exc : Option String
  deriving Repr

/-- The round loop (`task_runner.py` lines 297-361) from round index `i`:
set `current_round`, run every platform, update
`progress = round / total_rounds * 100`, and sleep between rounds; an
exception from that sleep escapes the loop. -/
def runRoundsFrom (env : Env) (req : CrawlRequest) :
    Nat → List (List String) → TaskStatus → World → RoundsOutcome
  | _, [], task, w => ⟨task, w, Option.none⟩
  | i, kws :: rest, task, w =>
    let task1 := { task with current_round := i }
    let tw1 := req.platforms.foldl (platformStep env req i kws) (task1, w)
    let task2 := tw1.1
    let w1 := tw1.2
    let task3 := { task2 with progress := (i : Rat) / (task2.total_rounds : Rat) * 100 }
    if i < task3.total_rounds then
      match env.roundSleep i with
      | Except.ok _ => runRoundsFrom env req (i + 1) rest task3 w1
      | Except.error e => ⟨task3, w1, some e⟩
    else runRoundsFrom env req (i + 1) rest task3 w1

/-- Embeds `for round_idx, keyword_group in enumerate(request.keyword_groups, 1)`. -/
def runRounds (env : Env) (req : CrawlRequest) (task : TaskStatus) (w : World) :
    RoundsOutcome :=
  runRoundsFrom env req 1 req.keyword_groups task w

/-- Final state of one background run. -/
structure RunOutcome where
  task : TaskStatus
  world : World
  slot : Option TaskStatus
  deriving Repr

/-- Embeds `TaskExecutor._run_task_background` (`task_runner.py` lines 283-378):
mark the task running, construct the database handler, run the round loop;
on normal completion set `completed` with progress `100.0`, on an escaping
exception set `failed` with the message; in `finally`, clear the tracked
slot when it still holds this task's id. -/
def runTaskBackground (env : Env) (req : CrawlRequest) (task0 : TaskStatus)
    (slot : Option TaskStatus) (w : World) : RunOutcome :=
  let task1 := { task0 with status := "running", start_time := some env.now }
  let afterBody : TaskStatus × World :=
    match env.dbInit with
    | Except.error e =>
        ({ task1 with status := "failed", error_message := some e,
                      end_time := some env.now }, w)
    | Except.ok _ =>
        let r := runRounds env req task1 w
        match r.exc with
        | Option.none =>
            ({ r.task with status := "completed", progress := 100,
                           end_time := some env.now }, r.world)
        | some e =>
            ({ r.task with status := "failed", error_message := some e,
                           end_time := some env.now }, r.world)
  let slot1 :=
    match slot with
    | some t => if t.task_id = task0.task_id then Option.none else slot
    | Option.none => Option.none
  ⟨afterBody.1, afterBody.2, slot1⟩

/-! ## General lemmas -/

/-- The runner-side and db-side id derivations are the same expression. -/
lemma derivePostIdDb_eq_runner (p : PostData) : derivePostIdDb p = derivePostIdRunner p := rfl

lemma dictGet_dictSet_self {α : Type} (l : List (String × α)) (k : String) (v : α) :
    dictGet (dictSet l k v) k = some v := by
  induction l with
  | nil => simp [dictSet, dictGet]
  | cons hd tl ih =>
      by_cases h : hd.1 = k
      · simp [dictSet, dictGet, h]
      · simp [dictSet, dictGet, h, ih]

lemma restoreConfig_empty (c : Config) : restoreConfig {} c = c := by
  simp [restoreConfig, Tokens.isEmpty]

lemma PyVal.truthy_none : PyVal.none.truthy = false := rfl

/-! ## C7: identifier fallback order -/

/-- C7: both the capture hook and the persistence save derive the post id
by trying `post_id`, `note_id`, `aweme_id`, `id` in order; a post with only
`aweme_id="B"` derives `"B"`, and a post with none of the four fields is
dropped: it is not appended to the captured posts, `save_post_with_comments`
returns `false` leaving the database unchanged, and `save_batch` skips it
without counting it. -/
theorem c7_identifier_fallback (p : PostData) (c : List String) (st : CaptureState)
    (db : DB) (pf : String) (m : Option Metadata) (t : Nat)
    (cd : List (String × List String)) (ps : List PostData)
    (h1 : p.post_id = Option.none) (h2 : p.note_id = Option.none)
    (h3 : p.aweme_id = Option.none) (h4 : p.id = Option.none) :
    derivePostIdRunner { aweme_id := some (PyVal.str "B") } = PyVal.str "B" ∧
    derivePostIdDb { aweme_id := some (PyVal.str "B") } = PyVal.str "B" ∧
    derivePostIdRunner p = PyVal.none ∧
    derivePostIdDb p = PyVal.none ∧
    captureSaveData st p c = st ∧
    savePostWithComments db pf p c m t = (db, false) ∧
    saveBatch db pf (p :: ps) cd m t = saveBatch db pf ps cd m t := by
  refine ⟨by decide, by decide, ?_, ?_, ?_, ?_, ?_⟩ <;>
    simp [derivePostIdRunner, derivePostIdDb, pyOr, pyGet, PyVal.truthy,
      captureSaveData, savePostWithComments, saveBatch, h1, h2, h3, h4]

theorem c7_identifier_fallback_witness :
    derivePostIdRunner { aweme_id := some (PyVal.str "B") } = PyVal.str "B" ∧
    derivePostIdDb { aweme_id := some (PyVal.str "B") } = PyVal.str "B" ∧
    derivePostIdRunner {} = PyVal.none ∧
    derivePostIdDb {} = PyVal.none ∧
    captureSaveData {} {} ["c"] = {} ∧
    savePostWithComments [] "xhs" {} ["c"] Option.none 0 = ([], false) ∧
    saveBatch [] "xhs" [{}] [] Option.none 0 = saveBatch [] "xhs" [] [] Option.none 0 :=
  c7_identifier_fallback {} ["c"] {} [] "xhs" Option.none 0 [] [] rfl rfl rfl rfl

/-! ## C9: present-but-falsy id fields are treated as absent -/

/-- C9: a present but falsy `post_id` is skipped by the fallback exactly as
if it were missing (for both derivations), and a post whose four id fields
are all present but all falsy is dropped: not captured, `save` returns
`false` with the database unchanged, and `save_batch` skips it exactly as
it skips a post with the fields missing. -/
theorem c9_falsy_ids_treated_as_absent (p : PostData) (v : PyVal)
    (st : CaptureState) (db : DB) (pf : String) (c : List String)
    (m : Option Metadata) (t : Nat) (cd : List (String × List String))
    (ps : List PostData)
    (hpv : p.post_id = some v) (hv : v.truthy = false) :
    (derivePostIdRunner p = derivePostIdRunner { p with post_id := Option.none } ∧
     derivePostIdDb p = derivePostIdDb { p with post_id := Option.none }) ∧
    (∀ q : PostData, ∀ a b a2 b2 : PyVal,
      q.post_id = some a → q.note_id = some b → q.aweme_id = some a2 → q.id = some b2 →
      a.truthy = false → b.truthy = false → a2.truthy = false → b2.truthy = false →
      (derivePostIdRunner q).truthy = false ∧
      captureSaveData st q c = st ∧
      savePostWithComments db pf q c m t = (db, false) ∧
      saveBatch db pf (q :: ps) cd m t = saveBatch db pf ps cd m t) := by
  constructor
  · constructor <;>
      simp [derivePostIdRunner, derivePostIdDb, pyOr, pyGet, PyVal.truthy_none, hpv, hv]
  · intro q a b a2 b2 hqa hqb hqa2 hqb2 ha hb ha2 hb2
    have hq : (derivePostIdRunner q).truthy = false := by
      simp [derivePostIdRunner, pyOr, pyGet, hqa, hqb, hqa2, hqb2, ha, hb, ha2, hb2]
    refine ⟨hq, ?_, ?_, ?_⟩ <;>
      simp [captureSaveData, savePostWithComments, saveBatch,
        derivePostIdDb_eq_runner, hq]

theorem c9_falsy_ids_witness :
    (derivePostIdRunner { post_id := some (PyVal.str ""), note_id := some (PyVal.str "N") } =
       derivePostIdRunner { post_id := Option.none, note_id := some (PyVal.str "N") } ∧
     derivePostIdDb { post_id := some (PyVal.str ""), note_id := some (PyVal.str "N") } =
       derivePostIdDb { post_id := Option.none, note_id := some (PyVal.str "N") }) ∧
    ((derivePostIdRunner { post_id := some (PyVal.str ""), note_id := some (PyVal.int 0),
                           aweme_id := some PyVal.none, id := some (PyVal.str "") }).truthy = false ∧
     captureSaveData {} { post_id := some (PyVal.str ""), note_id := some (PyVal.int 0),
                          aweme_id := some PyVal.none, id := some (PyVal.str "") } ["c"] = {} ∧
     savePostWithComments [] "xhs" { post_id := some (PyVal.str ""), note_id := some (PyVal.int 0),
                                     aweme_id := some PyVal.none, id := some (PyVal.str "") }
       ["c"] Option.none 3 = ([], false) ∧
     saveBatch [] "xhs" [{ post_id := some (PyVal.str ""), note_id := some (PyVal.int 0),
                           aweme_id := some PyVal.none, id := some (PyVal.str "") }] [] Option.none 3 =
       saveBatch [] "xhs" [] [] Option.none 3) := by
  have h := c9_falsy_ids_treated_as_absent
    { post_id := some (PyVal.str ""), note_id := some (PyVal.str "N") } (PyVal.str "")
    {} [] "xhs" ["c"] Option.none 3 [] [] rfl (by decide)
  exact ⟨h.1, h.2 _ _ _ _ _ rfl rfl rfl rfl (by decide) (by decide) (by decide) (by decide)⟩

/-! ## C6: the capture adapter never raises -/

/-- C6: whenever the crawler's creation or its `start()` raises,
`run_with_capture` catches the exception and returns
`success=False, error=<message>` with empty posts and comments. -/
theorem c6_adapter_catches_crawler_errors (sinks : List (String × Sink))
    (platform : String) (beh : CrawlerBeh) (e : String)
    (h : beh.createErr = some e ∨ (beh.createErr = Option.none ∧ beh.startErr = some e)) :
    (runWithCapture sinks platform beh).2 =
      { posts := [], comments := [], success := false, error := some e } := by
  rcases h with h | ⟨h1, h2⟩
  · simp [runWithCapture, h]
  · simp [runWithCapture, h1, h2]

theorem c6_adapter_catches_crawler_errors_witness :
    (runWithCapture (storePlatforms.map (fun p => (p, Sink.original))) "xhs"
        { createErr := some "boom" }).2 =
      { posts := [], comments := [], success := false, error := some "boom" } :=
  c6_adapter_catches_crawler_errors _ "xhs" { createErr := some "boom" } "boom" (Or.inl rfl)

/-! ## C4: submission admission control -/

/-- C4: `execute_crawl_task` fails with the busy error exactly when the
tracked task's status is `running`, leaving the slot untouched in that
case; otherwise it returns the caller-supplied task id when truthy (else
the generated one) and installs a fresh `TaskStatus` — status `pending`,
`current_round` 0, progress `0.0`, `total_rounds` the number of keyword
groups — as the tracked task, before background execution is detached. -/
theorem c4_admission_control (current : Option TaskStatus) (req : CrawlRequest)
    (genId : String) :
    ((∃ t, current = some t ∧ t.status = "running") ↔
      (executeCrawlTask current req genId).1 =
        Except.error "Task queue is full. Another task is currently running.") ∧
    ((∃ t, current = some t ∧ t.status = "running") →
      (executeCrawlTask current req genId).2 = current) ∧
    ((∀ t, current = some t → t.status ≠ "running") →
      ∃ tid,
        executeCrawlTask current req genId =
          (Except.ok tid,
           some { task_id := tid, total_rounds := req.keyword_groups.length,
                  current_round := 0, current_platform := Option.none,
                  status := "pending", progress := 0,
                  error_message := Option.none, start_time := Option.none,
                  end_time := Option.none }) ∧
        tid = (match req.task_id with
               | some s => if s ≠ "" then s else genId
               | Option.none => genId)) := by
  have hbusy : slotBusy current = true ↔ ∃ t, current = some t ∧ t.status = "running" := by
    cases current with
    | none => simp [slotBusy]
    | some t => simp [slotBusy]
  by_cases h : slotBusy current = true
  · refine ⟨?_, ?_, ?_⟩
    · rw [hbusy] at h
      simp [executeCrawlTask, slotBusy, h]
      obtain ⟨t, ht, hs⟩ := h
      subst ht
      simp [hs]
    · intro hr
      simp [executeCrawlTask, h]
    · intro hnone
      exfalso
      rw [hbusy] at h
      obtain ⟨t, ht, hs⟩ := h
      exact hnone t ht hs
  · have h2 : slotBusy current = false := by
      cases hb : slotBusy current
      · rfl
      · exact absurd hb h
    refine ⟨?_, ?_, ?_⟩
    · constructor
      · intro hex
        exact absurd (hbusy.mpr hex) h
      · intro herr
        exfalso
        simp [executeCrawlTask, h2] at herr
    · intro hex
      exact absurd (hbusy.mpr hex) h
    · intro _
      exact ⟨_, by simp [executeCrawlTask, h2], rfl⟩

theorem c4_admission_control_witness :
    ((executeCrawlTask (some { task_id := "t0", total_rounds := 2, status := "running" })
        { platforms := ["xhs"], keyword_groups := [["k"]] } "gen").1 =
      Except.error "Task queue is full. Another task is currently running.") ∧
    (executeCrawlTask Option.none
        { platforms := ["xhs"], keyword_groups := [["a"], ["b"]] } "gen") =
      (Except.ok "gen",
       some { task_id := "gen", total_rounds := 2, current_round := 0,
              current_platform := Option.none, status := "pending", progress := 0,
              error_message := Option.none, start_time := Option.none,
              end_time := Option.none }) := by
  constructor
  · exact (c4_admission_control
      (some { task_id := "t0", total_rounds := 2, status := "running" })
      { platforms := ["xhs"], keyword_groups := [["k"]] } "gen").1.mp
      ⟨_, rfl, rfl⟩
  · obtain ⟨tid, heq, htid⟩ := (c4_admission_control Option.none
      { platforms := ["xhs"], keyword_groups := [["a"], ["b"]] } "gen").2.2
      (by intro t ht; cases ht)
    rw [heq, htid]
    rfl

/-! ## C10: a pending tracked task does not block admission -/

/-- C10: admission rejects only on status `running`: when the tracked task
is `pending` (admitted but its background unit not yet started), a further
submit succeeds and installs the new task in the slot in its place. -/
theorem c10_pending_does_not_block (t : TaskStatus) (req : CrawlRequest)
    (genId : String) (h : t.status = "pending") :
    ∃ tid,
      executeCrawlTask (some t) req genId =
        (Except.ok tid,
         some { task_id := tid, total_rounds := req.keyword_groups.length,
                current_round := 0, current_platform := Option.none,
                status := "pending", progress := 0,
                error_message := Option.none, start_time := Option.none,
                end_time := Option.none }) ∧
      tid = (match req.task_id with
             | some s => if s ≠ "" then s else genId
             | Option.none => genId) := by
  refine ⟨_, ?_, rfl⟩
  simp [executeCrawlTask, slotBusy, h]

theorem c10_pending_does_not_block_witness :
    ∃ tid,
      executeCrawlTask (some { task_id := "old", total_rounds := 3, status := "pending" })
          { platforms := ["wb"], keyword_groups := [["k1"], ["k2"]], task_id := some "fresh" } "gen" =
        (Except.ok tid,
         some { task_id := tid, total_rounds := 2, current_round := 0,
                current_platform := Option.none, status := "pending", progress := 0,
                error_message := Option.none, start_time := Option.none,
                end_time := Option.none }) ∧
      tid = (match (some "fresh" : Option String) with
             | some s => if s ≠ "" then s else "gen"
             | Option.none => "gen") :=
  c10_pending_does_not_block { task_id := "old", total_rounds := 3, status := "pending" }
    { platforms := ["wb"], keyword_groups := [["k1"], ["k2"]], task_id := some "fresh" } "gen" rfl

/-! ## C8: upsert semantics of the persistence handler -/

lemma updateOneUpsert_filter (coll : List Document) (pid : String) (doc : Document)
    (hdoc : doc.post_id = pid)
    (h : coll.countP (fun d => d.post_id == pid) ≤ 1) :
    (updateOneUpsert coll pid doc).filter (fun d => d.post_id == pid) = [doc] := by
  induction coll with
  | nil => simp [updateOneUpsert, hdoc]
  | cons d rest ih =>
      by_cases hd : d.post_id = pid
      · have hnil : rest.filter (fun x => x.post_id == pid) = [] := by
          rw [List.countP_cons] at h
          simp [hd] at h
          rw [List.filter_eq_nil_iff]
          intro a ha
          simpa using h a ha
        simp [updateOneUpsert, hd, hdoc, hnil]
      · have h1 : rest.countP (fun x => x.post_id == pid) ≤ 1 := by
          rw [List.countP_cons] at h
          simpa [hd] using h
        simp [updateOneUpsert, hd, ih h1]

lemma updateOneUpsert_countP (coll : List Document) (pid : String) (doc : Document)
    (hdoc : doc.post_id = pid)
    (h : coll.countP (fun d => d.post_id == pid) ≤ 1) :
    (updateOneUpsert coll pid doc).countP (fun d => d.post_id == pid) = 1 := by
  rw [List.countP_eq_length_filter, updateOneUpsert_filter coll pid doc hdoc h]
  rfl

/-- C8: `save_post_with_comments` upserts keyed by the derived post id and
returns `true`; saving two posts with the same derived id in sequence
(different comments, metadata, times) leaves exactly one document with that
id in the platform collection, and that document carries the second save's
post detail, comments, comment count, metadata and `updated_at`. -/
theorem c8_upsert_idempotence (db : DB) (pf : String) (p1 p2 : PostData)
    (c1 c2 : List String) (m1 m2 : Option Metadata) (t1 t2 : Nat)
    (hid1 : (derivePostIdDb p1).truthy = true)
    (hid2 : (derivePostIdDb p2).truthy = true)
    (hsame : (derivePostIdDb p2).pyStr = (derivePostIdDb p1).pyStr)
    (huniq : (getCollection db pf).countP
        (fun d => d.post_id == (derivePostIdDb p1).pyStr) ≤ 1) :
    (savePostWithComments db pf p1 c1 m1 t1).2 = true ∧
    (savePostWithComments (savePostWithComments db pf p1 c1 m1 t1).1 pf p2 c2 m2 t2).2 = true ∧
    ((getCollection (savePostWithComments (savePostWithComments db pf p1 c1 m1 t1).1
          pf p2 c2 m2 t2).1 pf).countP
        (fun d => d.post_id == (derivePostIdDb p1).pyStr) = 1) ∧
    ((getCollection (savePostWithComments (savePostWithComments db pf p1 c1 m1 t1).1
          pf p2 c2 m2 t2).1 pf).filter
        (fun d => d.post_id == (derivePostIdDb p1).pyStr) =
      [{ post_id := (derivePostIdDb p1).pyStr, post_detail := p2, comments := c2,
         comment_count := c2.length, crawl_metadata := m2.getD {}, updated_at := t2 }]) := by
  have hdb1 : savePostWithComments db pf p1 c1 m1 t1 =
      (dictSet db (pf ++ "_media_crawler")
        (updateOneUpsert (getCollection db pf) (derivePostIdDb p1).pyStr
          { post_id := (derivePostIdDb p1).pyStr, post_detail := p1, comments := c1,
            comment_count := c1.length, crawl_metadata := m1.getD {}, updated_at := t1 }),
       true) := by
    simp [savePostWithComments, hid1]
  have hcoll1 : getCollection (savePostWithComments db pf p1 c1 m1 t1).1 pf =
      updateOneUpsert (getCollection db pf) (derivePostIdDb p1).pyStr
        { post_id := (derivePostIdDb p1).pyStr, post_detail := p1, comments := c1,
          comment_count := c1.length, crawl_metadata := m1.getD {}, updated_at := t1 } := by
    rw [hdb1]
    simp [getCollection, dictGet_dictSet_self]
  have hcnt1 : (getCollection (savePostWithComments db pf p1 c1 m1 t1).1 pf).countP
      (fun d => d.post_id == (derivePostIdDb p1).pyStr) = 1 := by
    rw [hcoll1]
    exact updateOneUpsert_countP _ _ _ rfl huniq
  have hdb2 : savePostWithComments (savePostWithComments db pf p1 c1 m1 t1).1 pf p2 c2 m2 t2 =
      (dictSet (savePostWithComments db pf p1 c1 m1 t1).1 (pf ++ "_media_crawler")
        (updateOneUpsert (getCollection (savePostWithComments db pf p1 c1 m1 t1).1 pf)
          (derivePostIdDb p1).pyStr
          { post_id := (derivePostIdDb p1).pyStr, post_detail := p2, comments := c2,
            comment_count := c2.length, crawl_metadata := m2.getD {}, updated_at := t2 }),
       true) := by
    simp [savePostWithComments, hid2, hsame]
  have hcoll2 : getCollection (savePostWithComments (savePostWithComments db pf p1 c1 m1 t1).1
      pf p2 c2 m2 t2).1 pf =
      updateOneUpsert (getCollection (savePostWithComments db pf p1 c1 m1 t1).1 pf)
        (derivePostIdDb p1).pyStr
        { post_id := (derivePostIdDb p1).pyStr, post_detail := p2, comments := c2,
          comment_count := c2.length, crawl_metadata := m2.getD {}, updated_at := t2 } := by
    rw [hdb2]
    simp [getCollection, dictGet_dictSet_self]
  refine ⟨by rw [hdb1], by rw [hdb2], ?_, ?_⟩
  · rw [hcoll2]
    exact updateOneUpsert_countP _ _ _ rfl (le_of_eq hcnt1)
  · rw [hcoll2]
    exact updateOneUpsert_filter _ _ _ rfl (le_of_eq hcnt1)

theorem c8_upsert_idempotence_witness :
    (savePostWithComments [] "xhs" { post_id := some (PyVal.str "A") } ["x"] Option.none 1).2 = true ∧
    (savePostWithComments (savePostWithComments [] "xhs" { post_id := some (PyVal.str "A") }
        ["x"] Option.none 1).1 "xhs" { post_id := some (PyVal.str "A") } ["y", "z"] Option.none 2).2 = true ∧
    ((getCollection (savePostWithComments (savePostWithComments [] "xhs"
          { post_id := some (PyVal.str "A") } ["x"] Option.none 1).1 "xhs"
          { post_id := some (PyVal.str "A") } ["y", "z"] Option.none 2).1 "xhs").countP
        (fun d => d.post_id == (derivePostIdDb { post_id := some (PyVal.str "A") }).pyStr) = 1) ∧
    ((getCollection (savePostWithComments (savePostWithComments [] "xhs"
          { post_id := some (PyVal.str "A") } ["x"] Option.none 1).1 "xhs"
          { post_id := some (PyVal.str "A") } ["y", "z"] Option.none 2).1 "xhs").filter
        (fun d => d.post_id == (derivePostIdDb { post_id := some (PyVal.str "A") }).pyStr) =
      [{ post_id := (derivePostIdDb { post_id := some (PyVal.str "A") }).pyStr,
         post_detail := { post_id := some (PyVal.str "A") }, comments := ["y", "z"],
         comment_count := 2, crawl_metadata := {}, updated_at := 2 }]) :=
  c8_upsert_idempotence [] "xhs" { post_id := some (PyVal.str "A") }
    { post_id := some (PyVal.str "A") } ["x"] ["y", "z"] Option.none Option.none 1 2
    (by decide) (by decide) rfl (by decide)

/-! ## C1: config transaction restoration -/

lemma injectConfig_tokens_not_empty (platform : String) (keywords : List String)
    (cc : CrawlerConfig) (c0 : Config) :
    ((injectConfig platform keywords cc c0).1).isEmpty = false := by
  simp [injectConfig, Tokens.isEmpty]

/-- Restoring right after injecting recovers every tracked field of the
prior config; only `IP_PROXY_POOL_COUNT`, which `inject_config` overwrites
without recording, keeps the injected value. -/
lemma restoreConfig_injectConfig (platform : String) (keywords : List String)
    (cc : CrawlerConfig) (c0 : Config) :
    restoreConfig (injectConfig platform keywords cc c0).1
        (injectConfig platform keywords cc c0).2 =
      { c0 with IP_PROXY_POOL_COUNT := cc.ip_proxy_pool_count } := by
  by_cases hst : c0.hasSORT_TYPE <;>
    simp [injectConfig, restoreConfig, Tokens.isEmpty, hst]

/-- The config after one platform step, on every branch, is the restored
config. -/
lemma platformStep_config (env : Env) (req : CrawlRequest) (roundIdx : Nat)
    (keywords : List String) (task : TaskStatus) (w : World) (platform : String) :
    (platformStep env req roundIdx keywords (task, w) platform).2.config =
      { w.config with IP_PROXY_POOL_COUNT := req.config.ip_proxy_pool_count } := by
  unfold platformStep
  simp only [restoreConfig_injectConfig]
  (repeat' split) <;> simp [restoreConfig_empty]

/-- C1: after the per-platform body closes its config transaction —
including when the platform's crawler raised inside the transaction's
scope, since the crawler behaviour in the step is arbitrary — every
tracked configuration field (platform, keywords, login type, crawler type,
headless, CDP mode, proxy enablement, max notes, max comments per note,
comment and sub-comment toggles, sleep bound, sort type, and the crawler
type context variable) equals its value from before the matching open. -/
theorem c1_config_restored_after_platform (env : Env) (req : CrawlRequest)
    (roundIdx : Nat) (keywords : List String) (task : TaskStatus) (w : World)
    (platform : String) :
    ((platformStep env req roundIdx keywords (task, w) platform).2.config.PLATFORM =
        w.config.PLATFORM) ∧
    ((platformStep env req roundIdx keywords (task, w) platform).2.config.KEYWORDS =
        w.config.KEYWORDS) ∧
    ((platformStep env req roundIdx keywords (task, w) platform).2.config.LOGIN_TYPE =
        w.config.LOGIN_TYPE) ∧
    ((platformStep env req roundIdx keywords (task, w) platform).2.config.CRAWLER_TYPE =
        w.config.CRAWLER_TYPE) ∧
    ((platformStep env req roundIdx keywords (task, w) platform).2.config.HEADLESS =
        w.config.HEADLESS) ∧
    ((platformStep env req roundIdx keywords (task, w) platform).2.config.ENABLE_CDP_MODE =
        w.config.ENABLE_CDP_MODE) ∧
    ((platformStep env req roundIdx keywords (task, w) platform).2.config.ENABLE_IP_PROXY =
        w.config.ENABLE_IP_PROXY) ∧
    ((platformStep env req roundIdx keywords (task, w) platform).2.config.CRAWLER_MAX_NOTES_COUNT =
        w.config.CRAWLER_MAX_NOTES_COUNT) ∧
    ((platformStep env req roundIdx keywords (task, w) platform).2.config.CRAWLER_MAX_COMMENTS_COUNT_SINGLENOTES =
        w.config.CRAWLER_MAX_COMMENTS_COUNT_SINGLENOTES) ∧
    ((platformStep env req roundIdx keywords (task, w) platform).2.config.ENABLE_GET_COMMENTS =
        w.config.ENABLE_GET_COMMENTS) ∧
    ((platformStep env req roundIdx keywords (task, w) platform).2.config.ENABLE_GET_SUB_COMMENTS =
        w.config.ENABLE_GET_SUB_COMMENTS) ∧
    ((platformStep env req roundIdx keywords (task, w) platform).2.config.CRAWLER_MAX_SLEEP_SEC =
        w.config.CRAWLER_MAX_SLEEP_SEC) ∧
    ((platformStep env req roundIdx keywords (task, w) platform).2.config.SORT_TYPE =
        w.config.SORT_TYPE) ∧
    ((platformStep env req roundIdx keywords (task, w) platform).2.config.crawler_type_var =
        w.config.crawler_type_var) := by
  rw [platformStep_config env req roundIdx keywords task w platform]
  refine ⟨rfl, rfl, rfl, rfl, rfl, rfl, rfl, rfl, rfl, rfl, rfl, rfl, rfl, rfl⟩

/-! ## C5: terminal transitions and slot release -/

lemma runRoundsFrom_no_exc (env : Env) (req : CrawlRequest)
    (hrs : ∀ i, env.roundSleep i = Except.ok ()) :
    ∀ (groups : List (List String)) (i : Nat) (task : TaskStatus) (w : World),
      (runRoundsFrom env req i groups task w).exc = Option.none := by
  intro groups
  induction groups with
  | nil =>
      intro i task w
      rfl
  | cons kws rest ih =>
      intro i task w
      unfold runRoundsFrom
      split
      · simp only [ite_self]
        exact ih _ _ _
      · rename_i e heq
        rw [hrs i] at heq
        cases heq

lemma runRounds_no_exc (env : Env) (req : CrawlRequest) (task : TaskStatus)
    (w : World) (hrs : ∀ i, env.roundSleep i = Except.ok ()) :
    (runRounds env req task w).exc = Option.none :=
  runRoundsFrom_no_exc env req hrs req.keyword_groups 1 task w

/-- C5: for every background run: when the body completes all rounds the
task ends `completed` with progress `100.0` and `end_time` set; when the
database-handler construction raises or an exception escapes the round
loop the task ends `failed` with the message recorded and `end_time` set;
and on every one of these code paths the tracked slot holding this task's
id is cleared. -/
theorem c5_finalization_and_slot_release (env : Env) (req : CrawlRequest)
    (task : TaskStatus) (w : World) (t : TaskStatus)
    (hid : t.task_id = task.task_id) :
    ((runTaskBackground env req task (some t) w).slot = Option.none) ∧
    (env.dbInit = Except.ok () →
      (runRounds env req { task with status := "running", start_time := some env.now } w).exc =
        Option.none →
      (runTaskBackground env req task (some t) w).task.status = "completed" ∧
      (runTaskBackground env req task (some t) w).task.progress = 100 ∧
      (runTaskBackground env req task (some t) w).task.end_time = some env.now) ∧
    (∀ e, env.dbInit = Except.ok () →
      (runRounds env req { task with status := "running", start_time := some env.now } w).exc =
        some e →
      (runTaskBackground env req task (some t) w).task.status = "failed" ∧
      (runTaskBackground env req task (some t) w).task.error_message = some e ∧
      (runTaskBackground env req task (some t) w).task.end_time = some env.now) ∧
    (∀ e, env.dbInit = Except.error e →
      (runTaskBackground env req task (some t) w).task.status = "failed" ∧
      (runTaskBackground env req task (some t) w).task.error_message = some e ∧
      (runTaskBackground env req task (some t) w).task.end_time = some env.now) := by
  refine ⟨?_, ?_, ?_, ?_⟩
  · simp [runTaskBackground, hid]
  · intro hdb hexc
    simp [runTaskBackground, hdb, hexc]
  · intro e hdb hexc
    simp [runTaskBackground, hdb, hexc]
  · intro e hdb
    simp [runTaskBackground, hdb]

theorem c5_finalization_witness :
    ((runTaskBackground
        { dbInit := Except.ok (), crawler := fun _ _ => {},
          platformSleep := fun _ _ => Except.ok (),
          roundSleep := fun _ => Except.ok (), now := 7 }
        { platforms := ["xhs"], keyword_groups := [["k"]] }
        { task_id := "T", total_rounds := 1 }
        (some { task_id := "T", total_rounds := 1 }) {}).slot = Option.none) ∧
    ((runTaskBackground
        { dbInit := Except.ok (), crawler := fun _ _ => {},
          platformSleep := fun _ _ => Except.ok (),
          roundSleep := fun _ => Except.ok (), now := 7 }
        { platforms := ["xhs"], keyword_groups := [["k"]] }
        { task_id := "T", total_rounds := 1 }
        (some { task_id := "T", total_rounds := 1 }) {}).task.status = "completed") ∧
    ((runTaskBackground
        { dbInit := Except.ok (), crawler := fun _ _ => {},
          platformSleep := fun _ _ => Except.ok (),
          roundSleep := fun _ => Except.ok (), now := 7 }
        { platforms := ["xhs"], keyword_groups := [["k"]] }
        { task_id := "T", total_rounds := 1 }
        (some { task_id := "T", total_rounds := 1 }) {}).task.progress = 100) ∧
    ((runTaskBackground
        { dbInit := Except.ok (), crawler := fun _ _ => {},
          platformSleep := fun _ _ => Except.ok (),
          roundSleep := fun _ => Except.ok (), now := 7 }
        { platforms := ["xhs"], keyword_groups := [["k"]] }
        { task_id := "T", total_rounds := 1 }
        (some { task_id := "T", total_rounds := 1 }) {}).task.end_time = some 7) := by
  have h := c5_finalization_and_slot_release
    { dbInit := Except.ok (), crawler := fun _ _ => {},
      platformSleep := fun _ _ => Except.ok (),
      roundSleep := fun _ => Except.ok (), now := 7 }
    { platforms := ["xhs"], keyword_groups := [["k"]] }
    { task_id := "T", total_rounds := 1 } {}
    { task_id := "T", total_rounds := 1 } rfl
  obtain ⟨hc1, hc2, hc3⟩ := h.2.1 rfl (by decide)
  exact ⟨h.1, hc1, hc2, hc3⟩

/-! ## C2: a single platform failure never aborts the round or the task -/

lemma runTaskBackground_completed (env : Env) (req : CrawlRequest)
    (task : TaskStatus) (slot : Option TaskStatus) (w : World)
    (hdb : env.dbInit = Except.ok ())
    (hrs : ∀ i, env.roundSleep i = Except.ok ()) :
    (runTaskBackground env req task slot w).task.status = "completed" := by
  have hx : (runRounds env req
      { task with status := "running", start_time := some env.now } w).exc = Option.none :=
    runRounds_no_exc env req _ w hrs
  simp only [runTaskBackground, hdb, hx]

lemma runTaskBackground_world (env : Env) (req : CrawlRequest)
    (task : TaskStatus) (slot : Option TaskStatus) (w : World)
    (hdb : env.dbInit = Except.ok ()) :
    (runTaskBackground env req task slot w).world =
      (runRounds env req { task with status := "running", start_time := some env.now } w).world := by
  simp only [runTaskBackground, hdb]
  split <;> rfl

/-- In a single-round request the world after the round loop is the world
after the platform fold (the inter-round sleep never runs a further
round). -/
lemma runRounds_world_single (env : Env) (req : CrawlRequest) (task : TaskStatus)
    (w : World) (kws : List String) (hkw : req.keyword_groups = [kws]) :
    (runRounds env req task w).world =
      (List.foldl (platformStep env req 1 kws)
        ({ task with current_round := 1 }, w) req.platforms).2 := by
  unfold runRounds
  rw [hkw]
  unfold runRoundsFrom
  split <;> simp [apply_ite RoundsOutcome.world, runRoundsFrom]

/-- Every branch of the per-platform body only appends to the event log. -/
lemma platformStep_events_mem (env : Env) (req : CrawlRequest) (i : Nat)
    (kws : List String) (t : TaskStatus) (w : World) (p : String) (ev : Event)
    (hev : ev ∈ w.events) :
    ev ∈ (platformStep env req i kws (t, w) p).2.events := by
  unfold platformStep
  by_cases hs : (runWithCapture w.sinks p (env.crawler i p)).2.success = true <;>
    (repeat' split) <;> simp [hs, hev]

lemma platformStep_events_mem_pair (env : Env) (req : CrawlRequest) (i : Nat)
    (kws : List String) (tw : TaskStatus × World) (p : String) (ev : Event)
    (hev : ev ∈ tw.2.events) :
    ev ∈ (platformStep env req i kws tw p).2.events := by
  obtain ⟨t, w⟩ := tw
  exact platformStep_events_mem env req i kws t w p ev hev

lemma foldl_platformStep_events_mem (env : Env) (req : CrawlRequest) (i : Nat)
    (kws : List String) (ev : Event) :
    ∀ (ps : List String) (t : TaskStatus) (w : World), ev ∈ w.events →
      ev ∈ (List.foldl (platformStep env req i kws) (t, w) ps).2.events := by
  intro ps
  induction ps with
  | nil =>
      intro t w h
      exact h
  | cons p rest ih =>
      intro t w h
      rw [List.foldl_cons]
      exact ih (platformStep env req i kws (t, w) p).1
        (platformStep env req i kws (t, w) p).2
        (platformStep_events_mem env req i kws t w p ev h)

/-- When the crawler invocation for a platform raises at creation, the step
records the platform failure, leaves the sinks and the database untouched,
and continues. -/
lemma platformStep_crawler_fail (env : Env) (req : CrawlRequest) (i : Nat)
    (kws : List String) (t : TaskStatus) (w : World) (p : String) (e : String)
    (hbeh : (env.crawler i p).createErr = some e) :
    Event.platformFailed p e ∈ (platformStep env req i kws (t, w) p).2.events ∧
    (platformStep env req i kws (t, w) p).2.sinks = w.sinks ∧
    (platformStep env req i kws (t, w) p).2.db = w.db := by
  unfold platformStep
  simp only [runWithCapture, hbeh]
  (repeat' split) <;> simp_all

/-- When the crawler invocation for a platform succeeds with one captured
post carrying a truthy id and the store module is patchable, the step
records a saved count of one. -/
lemma platformStep_saved_one (env : Env) (req : CrawlRequest) (i : Nat)
    (kws : List String) (tw : TaskStatus × World) (p : String)
    (p1 : PostData) (cs : List String)
    (h1 : (env.crawler i p).createErr = Option.none)
    (h2 : (env.crawler i p).startErr = Option.none)
    (h3 : (env.crawler i p).captures = [(p1, cs)])
    (hmem : p ∈ storePlatforms)
    (hsink : (dictGet tw.2.sinks p).isSome = true)
    (hp1 : (derivePostIdRunner p1).truthy = true) :
    Event.savedCount p 1 ∈ (platformStep env req i kws tw p).2.events := by
  obtain ⟨t, w⟩ := tw
  simp only [] at hsink
  have hsb : ∀ (db : DB) (meta : Option Metadata) (now : Nat),
      (saveBatch db p [p1]
        (dictSet [] (derivePostIdRunner p1).pyStr cs) meta now).2 = 1 := by
    intro db meta now
    simp [saveBatch, savePostWithComments, derivePostIdDb_eq_runner, hp1,
      dictSet, dictGet]
  have hcap : captureRun [(p1, cs)] =
      { captured_posts := [p1],
        captured_comments := dictSet [] (derivePostIdRunner p1).pyStr cs } := by
    simp [captureRun, captureSaveData, hp1]
  have hpatched : (decide (p ∈ storePlatforms) && (dictGet w.sinks p).isSome) = true := by
    simp [hmem, hsink]
  unfold platformStep
  simp only [runWithCapture, h1, h2, h3, hpatched, if_true, hcap]
  (repeat' split) <;> simp_all [hsb]

/-- C2: with the round-loop environment raising no structural exception, a
crawler failure on one platform never aborts the task — for every request
the final status is `completed` — and concretely for platforms
`["xhs","wb"]` in a single round where the `"xhs"` crawler raises and the
`"wb"` crawler captures one post, the run completes, the failure is logged
for `"xhs"`, and the `"wb"` batch save still executes, saving one post. -/
theorem c2_platform_failure_contained (env : Env) (task : TaskStatus) (w : World)
    (slot : Option TaskStatus) (kws : List String) (cfg : CrawlerConfig)
    (tid0 tname : Option String) (e : String) (p1 : PostData) (cs : List String)
    (hdb : env.dbInit = Except.ok ())
    (hrs : ∀ i, env.roundSleep i = Except.ok ())
    (hxhs : (env.crawler 1 "xhs").createErr = some e)
    (hwb1 : (env.crawler 1 "wb").createErr = Option.none)
    (hwb2 : (env.crawler 1 "wb").startErr = Option.none)
    (hwb3 : (env.crawler 1 "wb").captures = [(p1, cs)])
    (hsink : (dictGet w.sinks "wb").isSome = true)
    (hp1 : (derivePostIdRunner p1).truthy = true) :
    (∀ (req2 : CrawlRequest) (task2 : TaskStatus) (slot2 : Option TaskStatus) (w2 : World),
      (runTaskBackground env req2 task2 slot2 w2).task.status = "completed") ∧
    (runTaskBackground env
        { platforms := ["xhs", "wb"], keyword_groups := [kws], config := cfg,
          task_id := tid0, task_name := tname } task slot w).task.status = "completed" ∧
    Event.platformFailed "xhs" e ∈
      (runTaskBackground env
        { platforms := ["xhs", "wb"], keyword_groups := [kws], config := cfg,
          task_id := tid0, task_name := tname } task slot w).world.events ∧
    Event.savedCount "wb" 1 ∈
      (runTaskBackground env
        { platforms := ["xhs", "wb"], keyword_groups := [kws], config := cfg,
          task_id := tid0, task_name := tname } task slot w).world.events := by
  have hgen : ∀ (req2 : CrawlRequest) (task2 : TaskStatus) (slot2 : Option TaskStatus)
      (w2 : World), (runTaskBackground env req2 task2 slot2 w2).task.status = "completed" :=
    fun req2 task2 slot2 w2 => runTaskBackground_completed env req2 task2 slot2 w2 hdb hrs
  refine ⟨hgen, hgen _ _ _ _, ?_, ?_⟩ <;>
  · rw [runTaskBackground_world env _ task slot w hdb,
      runRounds_world_single env _ _ w kws rfl]
    rw [show ({ platforms := ["xhs", "wb"], keyword_groups := [kws], config := cfg,
                task_id := tid0, task_name := tname } : CrawlRequest).platforms =
          ["xhs", "wb"] from rfl]
    rw [List.foldl_cons, List.foldl_cons, List.foldl_nil]
    first
    | exact platformStep_events_mem_pair _ _ _ _ _ _ _
        (platformStep_crawler_fail _ _ 1 kws _ w "xhs" e hxhs).1
    | refine platformStep_saved_one _ _ 1 kws _ "wb" p1 cs hwb1 hwb2 hwb3
        (by decide) ?_ hp1
      rw [(platformStep_crawler_fail _ _ 1 kws _ w "xhs" e hxhs).2.1]
      exact hsink

theorem c2_platform_failure_contained_witness :
    ((runTaskBackground
        { dbInit := Except.ok (),
          crawler := fun _ p =>
            if p = "xhs" then { createErr := some "boom" }
            else if p = "wb" then
              { captures := [({ post_id := some (PyVal.str "P1") }, ["c1"])] }
            else {},
          platformSleep := fun _ _ => Except.ok (),
          roundSleep := fun _ => Except.ok (), now := 9 }
        { platforms := ["xhs", "wb"], keyword_groups := [["a"]] }
        { task_id := "T2", total_rounds := 1 } Option.none {}).task.status = "completed") ∧
    Event.platformFailed "xhs" "boom" ∈
      (runTaskBackground
        { dbInit := Except.ok (),
          crawler := fun _ p =>
            if p = "xhs" then { createErr := some "boom" }
            else if p = "wb" then
              { captures := [({ post_id := some (PyVal.str "P1") }, ["c1"])] }
            else {},
          platformSleep := fun _ _ => Except.ok (),
          roundSleep := fun _ => Except.ok (), now := 9 }
        { platforms := ["xhs", "wb"], keyword_groups := [["a"]] }
        { task_id := "T2", total_rounds := 1 } Option.none {}).world.events ∧
    Event.savedCount "wb" 1 ∈
      (runTaskBackground
        { dbInit := Except.ok (),
          crawler := fun _ p =>
            if p = "xhs" then { createErr := some "boom" }
            else if p = "wb" then
              { captures := [({ post_id := some (PyVal.str "P1") }, ["c1"])] }
            else {},
          platformSleep := fun _ _ => Except.ok (),
          roundSleep := fun _ => Except.ok (), now := 9 }
        { platforms := ["xhs", "wb"], keyword_groups := [["a"]] }
        { task_id := "T2", total_rounds := 1 } Option.none {}).world.events := by
  have h := c2_platform_failure_contained
    { dbInit := Except.ok (),
      crawler := fun _ p =>
        if p = "xhs" then { createErr := some "boom" }
        else if p = "wb" then
          { captures := [({ post_id := some (PyVal.str "P1") }, ["c1"])] }
        else {},
      platformSleep := fun _ _ => Except.ok (),
      roundSleep := fun _ => Except.ok (), now := 9 }
    { task_id := "T2", total_rounds := 1 } {} Option.none ["a"] {} Option.none Option.none
    "boom" { post_id := some (PyVal.str "P1") } ["c1"]
    rfl (fun _ => rfl) (by decide) (by decide) (by decide) (by decide) (by decide) (by decide)
  exact ⟨h.2.1, h.2.2.1, h.2.2.2⟩

/-! ## C3: the capture adapter does not restore the original sink

`_setup_data_capture` remembers the original `save_data` in
`self.original_methods`, but no code path of `run_with_capture` ever
writes it back: after the call returns — here after a crawler run that
completes normally with no captures — the store module's `save_data` is
still bound to the capture hook, not the original function. -/

/-- C3 (violation by the code): running `run_with_capture` for `"xhs"`
over the pristine store modules and a normally-completing crawler leaves
`store.xhs.save_data` bound to the capture hook after the call returns,
and the hook is not the original function. -/
theorem c3_sink_left_patched_after_run :
    (runWithCapture (storePlatforms.map (fun p => (p, Sink.original))) "xhs" {}).2.success
        = true ∧
    dictGet (runWithCapture (storePlatforms.map (fun p => (p, Sink.original))) "xhs" {}).1
        "xhs" = some Sink.capture ∧
    Sink.capture ≠ Sink.original := by decide

end MediaCrawler
